import Mathlib

/-!
Shallow embedding of the finance-dashboard client.

Embedded source:
- the fetch-wrapper API client (class ApiService: method request, header
  construction, the 401 / non-2xx / network-failure classification);
- the auth session manager (AuthContext.jsx: initAuth, login, register,
  logout, clearAuth, refreshToken, and the derived isAuthenticated flag);
- the transaction form validation (TransactionForm: validateForm and
  handleSubmit);
- the dashboard write-then-refresh flow (Dashboard.jsx: fetchData,
  fetchTransactions, refreshData, handleTransactionSubmit,
  handleDeleteTransaction).

Modelling conventions: browser localStorage is a pair of nullable strings
(Storage); a nullable JS string is Option String and its JS truthiness is
jsTruthy (null and the empty string are falsy); the network is an explicit
outcome value fed to each operation (FetchOutcome / AuthOutcome), so each
async function becomes a total Lean function of its state and the outcome
of its awaited call — totality models the fact that the function settles
every promise rather than throwing uncaught; the cached user profile is
kept in its serialized form, so JSON.parse / JSON.stringify round-trips
are identities in the model.
-/

/-- JS truthiness of a nullable string: null and the empty string are falsy,
every other string is truthy. -/
def jsTruthy : Option String → Bool
  | none => false
  | some s => s != ""

/-- The JS expression `a || fb` for a nullable string a: the fallback is
taken when a is null or the empty string. -/
def jsOrElse (d : Option String) (fb : String) : String :=
  match d with
  | some s => if s == "" then fb else s
  | none => fb

/-- The persisted browser storage used by the client: the values stored
under the fixed keys token and user (None models an absent key, which is
what localStorage.getItem returns as null). -/
structure Storage where
  token : Option String
  user : Option String
deriving DecidableEq, Repr

/-- The outcome of one fetch call as seen by ApiService.request: either a
transport-level failure (the promise rejects, no response) or a response
with a status code, the optional detail field of the parsed error body
(None models both an absent body and a malformed one, since
`response.json().catch(() => ({}))` yields an object without detail in
both cases), and the optional parsed success body (None models a body
that fails to parse as JSON on the 2xx path). -/
inductive FetchOutcome where
  | networkError (msg : String)
  | response (status : Nat) (detail : Option String) (body : Option String)
deriving DecidableEq, Repr

/-- The response.ok flag of the Fetch API: status in the inclusive range
200 to 299. -/
def jsOk (status : Nat) : Bool := 200 ≤ status && status ≤ 299

/-- What one call to ApiService.request produces: the storage as left
behind, the settled result (Except.error carries the message of the thrown
Error, Except.ok the decoded payload), whether the browser was redirected
to /login, and how many fetch calls were issued. -/
structure RequestResult where
  store : Storage
  result : Except String String
  redirectedToLogin : Bool
  fetchCount : Nat

/-- The message of the Error thrown on the 401 path of ApiService.request. -/
def sessionExpiredMsg : String := "Session expired. Please login again."

/-- The message of the exception thrown when response.json() fails on a
2xx response (the client rethrows it unchanged). -/
def jsonParseFailMsg : String := "Unexpected end of JSON input"

/-- ApiService.request: one fetch, then classification of the response.
Mirrors the source: on a non-ok response, a 401 removes both stored keys,
redirects to /login and throws a session-expired Error; any other non-ok
status throws an Error whose message is errorData.detail when truthy, else
the generic status string; an ok response resolves to its parsed body (or
rethrows the parse failure); a transport failure rethrows the underlying
error. Exactly one fetch is issued on every path — there is no retry. -/
def request (store : Storage) (outcome : FetchOutcome) : RequestResult :=
  match outcome with
  | .networkError msg => ⟨store, .error msg, false, 1⟩
  | .response status detail body =>
    if !(jsOk status) then
      if status == 401 then
        ⟨⟨none, none⟩, .error sessionExpiredMsg, true, 1⟩
      else
        ⟨store, .error (jsOrElse detail ("HTTP error! status: " ++ toString status)),
          false, 1⟩
    else
      match body with
      | some payload => ⟨store, .ok payload, false, 1⟩
      | none => ⟨store, .error jsonParseFailMsg, false, 1⟩

/-- The configured base URL of ApiService. -/
def API_BASE_URL : String := "http://localhost:8000"

/-- The url built by ApiService.request. -/
def requestUrl (endpoint : String) : String := API_BASE_URL ++ endpoint

/-- The inner headers object literal built by ApiService.request: the
Content-Type entry, then the Authorization entry when the stored token is
truthy (the JS spread of `token && obj` adds nothing when token is null or
empty), then the spread of the caller-supplied options.headers — a None
optHeaders models options without a headers key, whose spread adds
nothing. Later entries override earlier ones, as in a JS object literal. -/
def innerHeaders (store : Storage) (optHeaders : Option (List (String × String))) :
    List (String × String) :=
  [("Content-Type", "application/json")]
    ++ (match store.token with
        | some t => if t == "" then [] else [("Authorization", "Bearer " ++ t)]
        | none => [])
    ++ optHeaders.getD []

/-- The headers the request is actually sent with: the config literal is
`headers: <inner>` followed by the spread of the whole options object, so
when the caller passes a headers key at all, that later binding replaces
the inner headers object wholesale — the merged Content-Type and
Authorization entries are discarded; only without a caller headers key do
the inner headers survive. -/
def configHeaders (store : Storage) (optHeaders : Option (List (String × String))) :
    List (String × String) :=
  match optHeaders with
  | some hs => hs
  | none => innerHeaders store none

/-- The value a key ends up bound to in a JS object literal built from the
listed entries in order: the last occurrence of the key wins. -/
def headerValue : List (String × String) → String → Option String
  | [], _ => none
  | (k, v) :: rest, key =>
    match headerValue rest key with
    | some r => some r
    | none => if k == key then some v else none

/-- The state owned by AuthProvider: the persisted storage plus the two
React state cells token and user (the user cell holds the parsed profile,
modelled by its serialization). -/
structure AuthState where
  store : Storage
  token : Option String
  user : Option String
deriving DecidableEq, Repr

/-- The outcome of one awaited auth API call (login, register or
refresh-token): a resolved response carrying access_token and user, or a
rejected promise carrying an error message. -/
inductive AuthOutcome where
  | success (access_token : String) (userData : String)
  | failure (msg : String)
deriving DecidableEq, Repr

/-- clearAuth: removes both stored keys and nulls both state cells. -/
def clearAuth (_st : AuthState) : AuthState := ⟨⟨none, none⟩, none, none⟩

/-- login(email, password): on a resolved credential exchange, persists
access_token and user, sets both state cells and returns true; on a
rejected one, the catch block toasts and returns false, touching nothing.
The function is total: every outcome settles to a Boolean, so login never
throws uncaught. -/
def login (_email _password : String) (st : AuthState) (o : AuthOutcome) :
    AuthState × Bool :=
  match o with
  | .success tok usr => (⟨⟨some tok, some usr⟩, some tok, some usr⟩, true)
  | .failure _ => (st, false)

/-- register(userData): same shape as login against the registration
endpoint. -/
def register (_userData : String) (st : AuthState) (o : AuthOutcome) :
    AuthState × Bool :=
  match o with
  | .success tok usr => (⟨⟨some tok, some usr⟩, some tok, some usr⟩, true)
  | .failure _ => (st, false)

/-- logout(): synchronous and unconditional — calls clearAuth and toasts.
Total on every state, so it never fails. -/
def logout (st : AuthState) : AuthState := clearAuth st

/-- refreshToken(): on a resolved renewal persists and sets the new
access_token and user, returning true; on a rejected one clears everything
and returns false, without throwing. -/
def refreshToken (st : AuthState) (o : AuthOutcome) : AuthState × Bool :=
  match o with
  | .success tok usr => (⟨⟨some tok, some usr⟩, some tok, some usr⟩, true)
  | .failure _ => (clearAuth st, false)

/-- The provider state right at mount, before the initAuth effect runs:
the token cell is seeded from localStorage.getItem, the user cell starts
null. -/
def mountState (s : Storage) : AuthState := ⟨s, s.token, none⟩

/-- The initAuth effect: when both saved values are truthy, both cells are
set from storage and the token is verified with getCurrentUser — a
rejected verification (which also covers a JSON.parse failure on the saved
user) runs clearAuth; otherwise nothing happens beyond the mount state. -/
def initAuth (s : Storage) (verifyOk : Bool) : AuthState :=
  if jsTruthy s.token && jsTruthy s.user then
    if verifyOk then ⟨s, s.token, s.user⟩ else clearAuth ⟨s, s.token, s.user⟩
  else mountState s

/-- The isAuthenticated flag exposed in the provider value:
`!!user && !!token`. -/
def isAuthenticated (st : AuthState) : Bool := jsTruthy st.user && jsTruthy st.token

/-- The states the Auth Session Manager can reach: any state produced by
the mount-plus-initAuth sequence from whatever storage the browser holds,
closed under login, register, logout and refreshToken with arbitrary call
outcomes. -/
inductive Reachable : AuthState → Prop where
  | init (s : Storage) (v : Bool) : Reachable (initAuth s v)
  | loginStep (e p : String) (st : AuthState) (o : AuthOutcome) :
      Reachable st → Reachable (login e p st o).1
  | registerStep (u : String) (st : AuthState) (o : AuthOutcome) :
      Reachable st → Reachable (register u st o).1
  | logoutStep (st : AuthState) : Reachable st → Reachable (logout st)
  | refreshStep (st : AuthState) (o : AuthOutcome) :
      Reachable st → Reachable (refreshToken st o).1

/-- The coupling the auth code maintains between the React cells and the
persisted storage: the token cell always equals the stored token, and the
user cell, when set at all, equals the stored user. -/
def authInvariant (st : AuthState) : Prop :=
  st.token = st.store.token ∧ (st.user ≠ none → st.user = st.store.user)

/-- The trim() of a JS string: whitespace stripped from both ends.
Defined by structural recursion over the character list so that concrete
instances evaluate. -/
def jsTrim (s : String) : String :=
  ⟨((s.data.dropWhile Char.isWhitespace).reverse.dropWhile Char.isWhitespace).reverse⟩

/-- The transaction form state that validateForm inspects. The amount
field of the controlled number input is either empty (None) or a numeric
value; the remaining fields are the literal form fields. -/
structure FormData where
  amount : Option ℚ
  category : String
  description : String
  transaction_type : String
  transaction_date : String
  tags : String
  notes : String
  is_recurring : Bool
deriving DecidableEq, Repr

/-- TransactionForm.validateForm: the error object stays empty exactly
when the amount is present and greater than 0 (an absent amount is falsy,
and both the number 0 and the string 0 fail `!amount || amount <= 0`),
the description is non-empty after trimming, and a category is chosen. -/
def validateForm (f : FormData) : Bool :=
  (match f.amount with
   | none => false
   | some a => decide (0 < a))
  && !(jsTrim f.description == "")
  && !(f.category == "")

/-- The payload handed to onSubmit: the form data with the amount parsed
to a number. -/
structure SubmitData where
  amount : ℚ
  category : String
  description : String
  transaction_type : String
  transaction_date : String
  tags : String
  notes : String
  is_recurring : Bool
deriving DecidableEq, Repr

/-- TransactionForm.handleSubmit: prevents the default, returns without
calling onSubmit when validateForm fails, else calls onSubmit with the
parsed payload. Some models the one onSubmit call, None models no call
(and hence no network activity from this submission). The getD 0 branch
of the amount is unreachable: validateForm only passes on a present
amount. -/
def handleSubmit (f : FormData) : Option SubmitData :=
  if validateForm f then
    some ⟨f.amount.getD 0, f.category, f.description, f.transaction_type,
      f.transaction_date, f.tags, f.notes, f.is_recurring⟩
  else none

/-- The API calls the dashboard can issue, keyed the way ApiService names
them. -/
inductive ApiCall where
  | healthCheck
  | getUsers
  | getSpendingAnalysis (userId : Nat) (months : Nat)
  | getUserTransactions (userId : Nat)
  | createTransaction (userId : Nat)
  | updateTransaction (userId : Nat) (txId : Nat)
  | deleteTransaction (userId : Nat) (txId : Nat)
deriving DecidableEq, Repr

/-- The calls issued by Dashboard.fetchData: health check, user list and
spending analysis (getSpendingAnalysis defaults months to 12). -/
def fetchDataCalls (userId : Nat) : List ApiCall :=
  [.healthCheck, .getUsers, .getSpendingAnalysis userId 12]

/-- The call issued by Dashboard.fetchTransactions. -/
def fetchTransactionsCalls (userId : Nat) : List ApiCall :=
  [.getUserTransactions userId]

/-- The calls issued by Dashboard.refreshData: the fan-out join of
fetchData and fetchTransactions. -/
def refreshDataCalls (userId : Nat) : List ApiCall :=
  fetchDataCalls userId ++ fetchTransactionsCalls userId

/-- The write call handleTransactionSubmit issues: an update when a
transaction is being edited, else a create. -/
def mutationCall (userId : Nat) (editing : Option Nat) : ApiCall :=
  match editing with
  | some txId => .updateTransaction userId txId
  | none => .createTransaction userId

/-- The call trace of Dashboard.handleTransactionSubmit: the write, then —
only when the write resolved — the awaited refreshData; a rejected write
is caught and toasted with no further calls. -/
def handleTransactionSubmitCalls (userId : Nat) (editing : Option Nat)
    (success : Bool) : List ApiCall :=
  [mutationCall userId editing] ++ (if success then refreshDataCalls userId else [])

/-- The call trace of Dashboard.handleDeleteTransaction: nothing without
the window.confirm, else the delete followed — only on success — by the
awaited refreshData. -/
def handleDeleteTransactionCalls (userId : Nat) (txId : Nat)
    (confirmed success : Bool) : List ApiCall :=
  if confirmed then
    [.deleteTransaction userId txId] ++ (if success then refreshDataCalls userId else [])
  else []

/-- The dashboard cache of server-owned data: the transactions state cell
and the spending part of the data state cell. -/
structure DashboardCache (α β : Type) where
  transactions : α
  spending : β
deriving DecidableEq, Repr

/-- The cache refreshData leaves behind: both cells are overwritten with
what the server returned to the two re-fetches. -/
def refreshDataCache {α β : Type} (freshTx : α) (freshSp : β) : DashboardCache α β :=
  ⟨freshTx, freshSp⟩

/-- The cache after handleTransactionSubmit: a resolved write awaits
refreshData, so both cells hold the freshly fetched values whatever the
cache held before; a rejected write leaves the cache untouched. No path
computes a new cache value locally from the old one. -/
def handleTransactionSubmitCache {α β : Type} (old : DashboardCache α β)
    (success : Bool) (freshTx : α) (freshSp : β) : DashboardCache α β :=
  if success then refreshDataCache freshTx freshSp else old

/-- Every operation of the auth layer and the API client that touches the
persisted storage, with the outcome of its awaited call. -/
inductive StoreOp where
  | opLogin (email password : String) (o : AuthOutcome)
  | opRegister (userData : String) (o : AuthOutcome)
  | opLogout
  | opClearAuth
  | opRefresh (o : AuthOutcome)
  | opInit (verifyOk : Bool)
  | opRequest (outcome : FetchOutcome)
deriving Repr

/-- The effect of each operation on the persisted storage alone, read off
from the full operations (the auth ones run from the mount state over the
given storage; their storage effect does not depend on the React cells). -/
def applyStoreOp : StoreOp → Storage → Storage
  | .opLogin e p o, s => ((login e p (mountState s) o).1).store
  | .opRegister u o, s => ((register u (mountState s) o).1).store
  | .opLogout, s => (logout (mountState s)).store
  | .opClearAuth, s => (clearAuth (mountState s)).store
  | .opRefresh o, s => ((refreshToken (mountState s) o).1).store
  | .opInit v, s => (initAuth s v).store
  | .opRequest oc, s => (request s oc).store

/-- The two persisted keys are in step: token and user are both absent or
both present. -/
def pairedKeys (s : Storage) : Prop := (s.token = none ↔ s.user = none)

/-- Helper: jsOrElse never returns the empty string when its fallback is
non-empty, since a truthy detail is itself non-empty. -/
lemma jsOrElse_ne_empty (d : Option String) (fb : String) (hfb : fb ≠ "") :
    jsOrElse d fb ≠ "" := by
  cases d with
  | none => simpa [jsOrElse] using hfb
  | some s =>
    by_cases hs : (s == "") = true
    · simpa [jsOrElse, hs] using hfb
    · simp only [jsOrElse, Bool.not_eq_true] at hs ⊢
      simpa [hs] using (by simpa using hs : s ≠ "")

/-- Helper: the generic status message is never the empty string. -/
lemma http_fallback_ne_empty (x : String) : ("HTTP error! status: " ++ x) ≠ "" := by
  intro h
  have h2 := congrArg String.length h
  simp [String.length_append] at h2
  exact absurd h2.1 (by decide)

/-- Claim C1: a 401 response to any request empties the Token Store (both
persisted keys removed), leaves the session Unauthenticated (the client
redirects to /login and the remounted provider restores from the emptied
store, whatever the verification outcome), surfaces the session-expired
failure to the caller, and issues no retry (exactly one fetch). -/
theorem c1_status401_clears_session (store : Storage) (detail body : Option String)
    (v : Bool) :
    (request store (.response 401 detail body)).store = ⟨none, none⟩ ∧
    (request store (.response 401 detail body)).result = .error sessionExpiredMsg ∧
    (request store (.response 401 detail body)).redirectedToLogin = true ∧
    (request store (.response 401 detail body)).fetchCount = 1 ∧
    isAuthenticated (initAuth (request store (.response 401 detail body)).store v) = false := by
  refine ⟨rfl, rfl, rfl, rfl, ?_⟩
  simp [request, initAuth, jsOk, jsTruthy, mountState, isAuthenticated]

/-- Claim C2: on a non-2xx, non-401 response the surfaced failure message
is the truthy detail of the error body when one is present, else the
generic status string; with a malformed or absent body (detail = none) it
is the generic string; on every such response the message is a non-empty
string and the store is untouched. -/
theorem c2_non2xx_error_message (store : Storage) (detail body : Option String)
    (status : Nat) (hok : jsOk status = false) (h401 : status ≠ 401) :
    (request store (.response status detail body)).result =
      .error (jsOrElse detail ("HTTP error! status: " ++ toString status)) ∧
    (∀ d, detail = some d → d ≠ "" →
      (request store (.response status detail body)).result = .error d) ∧
    (detail = none →
      (request store (.response status detail body)).result =
        .error ("HTTP error! status: " ++ toString status)) ∧
    (∀ msg, (request store (.response status detail body)).result = .error msg →
      msg ≠ "") ∧
    (request store (.response status detail body)).store = store := by
  have hreq : request store (.response status detail body) =
      ⟨store, .error (jsOrElse detail ("HTTP error! status: " ++ toString status)),
        false, 1⟩ := by
    simp [request, hok, h401]
  refine ⟨by rw [hreq], ?_, ?_, ?_, by rw [hreq]⟩
  · intro d hd hne
    rw [hreq]
    simp [jsOrElse, hd, hne]
  · intro hd
    rw [hreq]
    simp [jsOrElse, hd]
  · intro msg hmsg
    rw [hreq] at hmsg
    have : msg = jsOrElse detail ("HTTP error! status: " ++ toString status) := by
      simpa using hmsg.symm
    rw [this]
    exact jsOrElse_ne_empty _ _ (http_fallback_ne_empty _)

/-- Claim C2 witness: a 500 response with no parsable body surfaces the
generic message, which is non-empty. -/
theorem c2_witness :
    jsOk 500 = false ∧
    (request ⟨some "tok", some "usr"⟩ (.response 500 none none)).result =
      .error ("HTTP error! status: " ++ toString 500) ∧
    (request ⟨some "tok", some "usr"⟩ (.response 500 none none)).store =
      ⟨some "tok", some "usr"⟩ := by
  have h := c2_non2xx_error_message ⟨some "tok", some "usr"⟩ none none 500
    (by decide) (by decide)
  exact ⟨by decide, h.2.2.1 rfl, h.2.2.2.2⟩

/-- Claim C3: login settles every outcome to a Boolean (the model function
is total, mirroring the try/catch that never rethrows): a rejected
credential exchange returns false and changes nothing — in particular an
Unauthenticated session stays Unauthenticated and neither storage key nor
state cell is set — while a resolved one persists token and user, sets
both cells, returns true, and (for a non-empty token and user) lands in
the Authenticated state. -/
theorem c3_login_failure_is_clean (email password : String) (st : AuthState)
    (msg tok usr : String) :
    login email password st (.failure msg) = (st, false) ∧
    (isAuthenticated st = false →
      isAuthenticated (login email password st (.failure msg)).1 = false) ∧
    login email password st (.success tok usr) =
      (⟨⟨some tok, some usr⟩, some tok, some usr⟩, true) ∧
    (tok ≠ "" → usr ≠ "" →
      isAuthenticated (login email password st (.success tok usr)).1 = true) := by
  refine ⟨rfl, fun h => h, rfl, fun h1 h2 => ?_⟩
  simp [login, isAuthenticated, jsTruthy, bne_iff_ne, h1, h2]

/-- Claim C3 witness: instances of each conjunct at concrete inputs. -/
theorem c3_witness :
    login "john@example.com" "demo123" ⟨⟨none, none⟩, none, none⟩
      (.failure "Invalid credentials") = (⟨⟨none, none⟩, none, none⟩, false) ∧
    isAuthenticated (login "john@example.com" "demo123" ⟨⟨none, none⟩, none, none⟩
      (.failure "Invalid credentials")).1 = false ∧
    isAuthenticated (login "john@example.com" "demo123" ⟨⟨none, none⟩, none, none⟩
      (.success "tok123" "john")).1 = true := by
  have h := c3_login_failure_is_clean "john@example.com" "demo123"
    ⟨⟨none, none⟩, none, none⟩ "Invalid credentials" "tok123" "john"
  exact ⟨h.1, h.2.1 (by decide), h.2.2.2 (by decide) (by decide)⟩

/-- Claim C4: after any login (whatever its outcome) followed by logout,
the state is fully cleared — empty Token Store and Unauthenticated — and
logout itself is a total synchronous function that clears unconditionally
from every state, so it never fails. -/
theorem c4_login_logout (email password : String) (st st2 : AuthState)
    (o : AuthOutcome) :
    logout (login email password st o).1 = ⟨⟨none, none⟩, none, none⟩ ∧
    isAuthenticated (logout (login email password st o).1) = false ∧
    (logout (login email password st o).1).store = ⟨none, none⟩ ∧
    logout st2 = clearAuth st2 ∧
    logout st2 = ⟨⟨none, none⟩, none, none⟩ :=
  ⟨rfl, rfl, rfl, rfl, rfl⟩

/-- Claim C8: refreshToken on a resolved renewal persists and sets the new
token and user and returns true; on a rejected one it clears the store,
lands Unauthenticated and returns false — the model is total, so no path
throws. -/
theorem c8_refresh_token (st : AuthState) (tok usr msg : String) :
    refreshToken st (.success tok usr) =
      (⟨⟨some tok, some usr⟩, some tok, some usr⟩, true) ∧
    refreshToken st (.failure msg) = (⟨⟨none, none⟩, none, none⟩, false) ∧
    isAuthenticated (refreshToken st (.failure msg)).1 = false ∧
    (refreshToken st (.failure msg)).1.store = ⟨none, none⟩ :=
  ⟨rfl, rfl, rfl, rfl⟩

/-- Claim C9 counterexample: a token tok123 is present in the Token Store,
yet a request whose options carry a headers key — here a single X-Custom
entry that does not even mention Authorization — is sent with no
Authorization header at all: the trailing options spread in the config
literal replaces the built headers object wholesale, so the claim as
stated fails at this concrete options value. -/
theorem c9_counterexample :
    (⟨some "tok123", some "john"⟩ : Storage).token = some "tok123" ∧
    headerValue
      (configHeaders ⟨some "tok123", some "john"⟩ (some [("X-Custom", "1")]))
      "Authorization" = none := by
  exact ⟨rfl, by decide⟩

/-- Claim C9 (amended): for every request whose caller passes no headers
key in its options — which is every call site in this repository — a
truthy stored token makes the sent headers carry Authorization: Bearer
token, and an absent token leaves no Authorization entry; when the caller
does pass a headers key, the trailing options spread replaces the built
headers object wholesale, so the request is sent with exactly the
caller-supplied headers and the client attaches no Authorization entry of
its own. -/
theorem c9_bearer_header_amended (store : Storage) (hs : List (String × String)) :
    (∀ t, store.token = some t → t ≠ "" →
      headerValue (configHeaders store none) "Authorization" =
        some ("Bearer " ++ t)) ∧
    (store.token = none →
      headerValue (configHeaders store none) "Authorization" = none) ∧
    configHeaders store (some hs) = hs := by
  refine ⟨?_, ?_, rfl⟩
  · intro t ht hne
    have hb : (t == "") = false := by simpa [beq_iff_eq] using hne
    have hch : configHeaders store none =
        [("Content-Type", "application/json"), ("Authorization", "Bearer " ++ t)] := by
      simp [configHeaders, innerHeaders, ht, hb]
    rw [hch]
    simp [headerValue]
  · intro ht
    have hch : configHeaders store none = [("Content-Type", "application/json")] := by
      simp [configHeaders, innerHeaders, ht]
    rw [hch]
    simp [headerValue]

/-- Claim C9 witness: with a stored token and no caller headers key the
Authorization header is attached; with no token it is absent; with caller
headers the sent headers are exactly the caller-supplied list. -/
theorem c9_amended_witness :
    headerValue (configHeaders ⟨some "tok123", some "john"⟩ none) "Authorization" =
      some ("Bearer " ++ "tok123") ∧
    headerValue (configHeaders ⟨none, some "john"⟩ none) "Authorization" = none ∧
    configHeaders ⟨some "tok123", some "john"⟩ (some [("X-Custom", "1")]) =
      [("X-Custom", "1")] := by
  have h1 := c9_bearer_header_amended ⟨some "tok123", some "john"⟩ [("X-Custom", "1")]
  have h2 := c9_bearer_header_amended ⟨none, some "john"⟩ []
  exact ⟨h1.1 "tok123" rfl (by decide), h2.2.1 rfl, h1.2.2⟩

/-- Helper: every reachable auth state keeps the React cells coupled to
the persisted storage. -/
lemma reachable_authInvariant (st : AuthState) (h : Reachable st) :
    authInvariant st := by
  induction h with
  | init s v =>
    cases v <;> by_cases hb : (jsTruthy s.token && jsTruthy s.user) = true <;>
      simp [initAuth, authInvariant, mountState, clearAuth, hb]
  | loginStep e p st o hst ih =>
    cases o with
    | success tok usr => simp [login, authInvariant]
    | failure m => simpa [login] using ih
  | registerStep u st o hst ih =>
    cases o with
    | success tok usr => simp [register, authInvariant]
    | failure m => simpa [register] using ih
  | logoutStep st hst ih => simp [logout, clearAuth, authInvariant]
  | refreshStep st o hst ih =>
    cases o with
    | success tok usr => simp [refreshToken, authInvariant]
    | failure m => simp [refreshToken, clearAuth, authInvariant]

/-- Claim C5: in every state the Auth Session Manager can reach through
initial restore, login, register, logout and refresh, an Authenticated
session (the isAuthenticated flag of the provider value) implies the Token
Store holds a non-empty token that is exactly the token of the session,
and the persisted user is exactly the user of the session. -/
theorem c5_authenticated_matches_store (st : AuthState) (h : Reachable st)
    (ha : isAuthenticated st = true) :
    ∃ t u, st.token = some t ∧ st.store.token = some t ∧ t ≠ "" ∧
      st.user = some u ∧ st.store.user = some u ∧ u ≠ "" := by
  have hinv := reachable_authInvariant st h
  rw [isAuthenticated, Bool.and_eq_true] at ha
  obtain ⟨hau, hat⟩ := ha
  cases hu : st.user with
  | none => rw [hu] at hau; exact absurd hau (by simp [jsTruthy])
  | some u =>
    cases ht : st.token with
    | none => rw [ht] at hat; exact absurd hat (by simp [jsTruthy])
    | some t =>
      rw [hu] at hau
      rw [ht] at hat
      have htne : t ≠ "" := by simpa [jsTruthy, bne_iff_ne] using hat
      have hune : u ≠ "" := by simpa [jsTruthy, bne_iff_ne] using hau
      refine ⟨t, u, rfl, ?_, htne, rfl, ?_, hune⟩
      · rw [← hinv.1]
        exact ht
      · rw [← hinv.2 (by rw [hu]; exact Option.some_ne_none u)]
        exact hu

/-- Claim C5 witness: the state reached by a fresh mount followed by a
successful login is Authenticated and satisfies the matching property. -/
theorem c5_witness :
    ∃ t u,
      ((login "john@example.com" "demo123" (initAuth ⟨none, none⟩ true)
          (.success "tok123" "john")).1).token = some t ∧
      ((login "john@example.com" "demo123" (initAuth ⟨none, none⟩ true)
          (.success "tok123" "john")).1).store.token = some t ∧ t ≠ "" ∧
      ((login "john@example.com" "demo123" (initAuth ⟨none, none⟩ true)
          (.success "tok123" "john")).1).user = some u ∧
      ((login "john@example.com" "demo123" (initAuth ⟨none, none⟩ true)
          (.success "tok123" "john")).1).store.user = some u ∧ u ≠ "" :=
  c5_authenticated_matches_store _
    (Reachable.loginStep "john@example.com" "demo123" _ _
      (Reachable.init ⟨none, none⟩ true))
    (by decide)

/-- Claim C6: a submission whose amount is absent or not greater than 0,
or whose description trims to empty, is rejected by validateForm inside
handleSubmit — onSubmit is not invoked (None), so no network call is
produced by the submission; conversely every invocation of onSubmit
(Some payload) happens only with validateForm passing. -/
theorem c6_validation_gates_submit (f : FormData) :
    (f.amount = none → handleSubmit f = none) ∧
    (∀ a, f.amount = some a → a ≤ 0 → handleSubmit f = none) ∧
    (jsTrim f.description = "" → handleSubmit f = none) ∧
    (∀ d, handleSubmit f = some d → validateForm f = true) := by
  refine ⟨?_, ?_, ?_, ?_⟩
  · intro h
    simp [handleSubmit, validateForm, h]
  · intro a ha hle
    have hng : ¬(0 < a) := not_lt.mpr hle
    simp [handleSubmit, validateForm, ha, hng]
  · intro h
    simp [handleSubmit, validateForm, h]
  · intro d hd
    by_cases hv : validateForm f = true
    · exact hv
    · rw [handleSubmit, if_neg hv] at hd
      exact absurd hd (by simp)

/-- Claim C6 witness: a zero amount and a whitespace-only description are
each rejected, and a valid form is the only way to reach onSubmit. -/
theorem c6_witness :
    handleSubmit ⟨some 0, "Food", "lunch", "expense", "2024-05-01", "", "", false⟩ =
      none ∧
    handleSubmit ⟨some 12, "Food", "   ", "expense", "2024-05-01", "", "", false⟩ =
      none ∧
    handleSubmit ⟨none, "Food", "lunch", "expense", "2024-05-01", "", "", false⟩ =
      none := by
  refine ⟨(c6_validation_gates_submit _).2.1 0 rfl le_rfl, ?_, ?_⟩
  · exact (c6_validation_gates_submit _).2.2.1 (by decide)
  · exact (c6_validation_gates_submit _).1 rfl

/-- Claim C7: after a successful create or update (handleTransactionSubmit)
and after a confirmed successful delete (handleDeleteTransaction), the
trace opens with the one write call and the awaited refresh re-issues both
the transaction-list fetch and the spending-analysis fetch; the cache the
flow leaves behind is exactly the freshly fetched pair, independent of
whatever the cache held before — the only local cache change without a
re-fetch is the no-op of a failed write. -/
theorem c7_full_refresh_on_write (u : Nat) (e : Option Nat) (tx : Nat)
    {α β : Type} (old : DashboardCache α β) (ftx : α) (fsp : β) :
    (handleTransactionSubmitCalls u e true).head? = some (mutationCall u e) ∧
    ApiCall.getUserTransactions u ∈ (handleTransactionSubmitCalls u e true).tail ∧
    ApiCall.getSpendingAnalysis u 12 ∈ (handleTransactionSubmitCalls u e true).tail ∧
    (handleDeleteTransactionCalls u tx true true).head? =
      some (ApiCall.deleteTransaction u tx) ∧
    ApiCall.getUserTransactions u ∈ (handleDeleteTransactionCalls u tx true true).tail ∧
    ApiCall.getSpendingAnalysis u 12 ∈
      (handleDeleteTransactionCalls u tx true true).tail ∧
    handleTransactionSubmitCache old true ftx fsp = ⟨ftx, fsp⟩ ∧
    handleTransactionSubmitCache old false ftx fsp = old := by
  refine ⟨rfl, ?_, ?_, rfl, ?_, ?_, rfl, rfl⟩ <;>
    simp [handleTransactionSubmitCalls, handleDeleteTransactionCalls,
      refreshDataCalls, fetchDataCalls, fetchTransactionsCalls]

/-- Claim C10: every operation of the auth layer and the API client either
leaves the persisted storage untouched, or removes both keys, or writes
both keys — never one without the other; consequently the both-or-neither
pairing of the two keys is preserved by every operation. -/
theorem c10_keys_move_together (op : StoreOp) (s : Storage) :
    (applyStoreOp op s = s ∨
      ((applyStoreOp op s).token = none ∧ (applyStoreOp op s).user = none) ∨
      (∃ t u, (applyStoreOp op s).token = some t ∧
        (applyStoreOp op s).user = some u)) ∧
    (pairedKeys s → pairedKeys (applyStoreOp op s)) := by
  have key : applyStoreOp op s = s ∨
      ((applyStoreOp op s).token = none ∧ (applyStoreOp op s).user = none) ∨
      (∃ t u, (applyStoreOp op s).token = some t ∧
        (applyStoreOp op s).user = some u) := by
    cases op with
    | opLogin e p o =>
      cases o with
      | success tok usr => exact Or.inr (Or.inr ⟨tok, usr, rfl, rfl⟩)
      | failure m => exact Or.inl rfl
    | opRegister ud o =>
      cases o with
      | success tok usr => exact Or.inr (Or.inr ⟨tok, usr, rfl, rfl⟩)
      | failure m => exact Or.inl rfl
    | opLogout => exact Or.inr (Or.inl ⟨rfl, rfl⟩)
    | opClearAuth => exact Or.inr (Or.inl ⟨rfl, rfl⟩)
    | opRefresh o =>
      cases o with
      | success tok usr => exact Or.inr (Or.inr ⟨tok, usr, rfl, rfl⟩)
      | failure m => exact Or.inr (Or.inl ⟨rfl, rfl⟩)
    | opInit v =>
      by_cases hb : (jsTruthy s.token && jsTruthy s.user) = true
      · cases v with
        | true =>
          left
          simp [applyStoreOp, initAuth, hb]
        | false =>
          right; left
          simp [applyStoreOp, initAuth, hb, clearAuth]
      · left
        simp [applyStoreOp, initAuth, hb, mountState]
    | opRequest oc =>
      cases oc with
      | networkError m => exact Or.inl rfl
      | response status detail body =>
        by_cases hok : jsOk status = true
        · left
          cases body <;> simp [applyStoreOp, request, hok]
        · by_cases h4 : status = 401
          · right; left
            subst h4
            simp [applyStoreOp, request, hok]
          · left
            simp [applyStoreOp, request, hok, h4]
  refine ⟨key, fun hp => ?_⟩
  rcases key with h | ⟨h1, h2⟩ | ⟨t, w, h1, h2⟩
  · rw [h]; exact hp
  · rw [pairedKeys, h1, h2]
  · rw [pairedKeys, h1, h2]
    simp

/-- Claim C10 witness: the 401 path of request removes both keys at once
and preserves the pairing from a fully populated store. -/
theorem c10_witness :
    applyStoreOp (.opRequest (.response 401 none none)) ⟨some "tok", some "usr"⟩ =
      ⟨none, none⟩ ∧
    pairedKeys
      (applyStoreOp (.opRequest (.response 401 none none)) ⟨some "tok", some "usr"⟩) := by
  have h := c10_keys_move_together (.opRequest (.response 401 none none))
    ⟨some "tok", some "usr"⟩
  exact ⟨by decide, h.2 (by simp [pairedKeys])⟩
